import Mathlib

/-!
Shallow embedding of nxthdr/rovcheck (src/main.rs), a CLI connectivity probe
that issues two HTTP GET requests (one against a "valid" RPKI endpoint, one
against an "invalid" one) and combines the two boolean outcomes into a single
OK/NOK verdict.

Modelling conventions:
- The network is an oracle `net : Url → HttpEvent` describing how each request
  resolves: a transport error (DNS failure, connection refused, TLS failure),
  a timeout of the reqwest client, or an HTTP response carrying a status code
  and a body.  A body that is not valid JSON text is `none`; otherwise it is
  the parsed JSON value.  `client.get(url).send()` in reqwest returns `Ok`
  for every received HTTP response regardless of its status code, and
  `Response::json` decodes the body without inspecting the status; the
  embedding of `get_url` reflects that.
- `Url::parse` is an oracle `parse : String → Except String Url`; main's `?`
  on it is modelled by aborting the run with the error.
- `Url` is modelled as scheme, host and a list of path segments; `Url.join`
  models RFC 3986 relative resolution for the references main produces: the
  empty reference resolves to the base itself, a single-segment reference
  replaces the last path segment of the base.
- `nanoid!(10, &alphabet)` is modelled with the random source as a stream of
  indices `rand : Nat → Nat`, each reduced modulo the alphabet size (the crate
  uses masked rejection sampling; every emitted character is a member of the
  supplied alphabet and the output length is exactly the one requested).
- Machine integers: the `asn: u32` field decodes a JSON integer only when it
  lies in `[0, 2^32)`, as serde does; JSON numbers are modelled as `Int`
  (non-integral numbers would likewise fail to decode to `u32` and are not
  needed by any claim).
-/

/-- JSON values, as far as the serde deserialization of the response body
needs them. -/
inductive Json where
  | str (s : String)
  | int (n : Int)
  | bool (b : Bool)
  | null
  | arr (elems : List Json)
  | obj (fields : List (String × Json))

/-- Embedding of the `IsBgpSafeYet` response struct (src/main.rs:46-53).
The `asn` field is `u32` in the source; the decoded value is a `Nat` known to
be below `2^32` because `decodeU32` enforces the range. -/
structure IsBgpSafeYet where
  status : String
  asn : Nat
  name : String
  blackholed : Bool
  deriving DecidableEq, Repr

/-- Field lookup in a JSON object, as serde resolves struct fields. -/
def getField (fields : List (String × Json)) (k : String) : Except String Json :=
  match fields.find? (fun p => p.1 = k) with
  | some p => Except.ok p.2
  | none => Except.error ("missing field " ++ k)

/-- serde deserialization of a `String` field. -/
def decodeString (j : Json) : Except String String :=
  match j with
  | Json.str s => Except.ok s
  | _ => Except.error "invalid type: expected string"

/-- serde deserialization of a `bool` field. -/
def decodeBool (j : Json) : Except String Bool :=
  match j with
  | Json.bool b => Except.ok b
  | _ => Except.error "invalid type: expected boolean"

/-- serde deserialization of a `u32` field: a JSON integer decodes exactly
when it lies in `[0, 2^32)`. -/
def decodeU32 (j : Json) : Except String Nat :=
  match j with
  | Json.int n => if 0 ≤ n ∧ n < 2 ^ 32 then Except.ok n.toNat else Except.error "invalid u32"
  | _ => Except.error "invalid type: expected integer"

/-- The derived `Deserialize` for `IsBgpSafeYet` (src/main.rs:46-53): the body
must be a JSON object providing the four fields with the right types (unknown
fields are ignored, serde's default). -/
def decodeIsBgpSafeYet (j : Json) : Except String IsBgpSafeYet :=
  match j with
  | Json.obj fields =>
    match getField fields "status" with
    | Except.error e => Except.error e
    | Except.ok sj =>
      match decodeString sj with
      | Except.error e => Except.error e
      | Except.ok status =>
        match getField fields "asn" with
        | Except.error e => Except.error e
        | Except.ok aj =>
          match decodeU32 aj with
          | Except.error e => Except.error e
          | Except.ok asn =>
            match getField fields "name" with
            | Except.error e => Except.error e
            | Except.ok nj =>
              match decodeString nj with
              | Except.error e => Except.error e
              | Except.ok name =>
                match getField fields "blackholed" with
                | Except.error e => Except.error e
                | Except.ok bj =>
                  match decodeBool bj with
                  | Except.error e => Except.error e
                  | Except.ok blackholed =>
                    Except.ok ⟨status, asn, name, blackholed⟩
  | _ => Except.error "invalid type: expected object"

/-- A URL: scheme, host and path segments (the parts the program manipulates). -/
structure Url where
  scheme : String
  host : String
  path : List String
  deriving DecidableEq, Repr

/-- `Url::join` for the references main produces (the identifier, a single
path segment): RFC 3986 relative resolution resolves the empty reference to
the base itself and otherwise replaces the last path segment of the base. -/
def Url.join (base : Url) (ref : String) : Url :=
  if ref = "" then base
  else { base with path := base.path.dropLast ++ [ref] }

/-- How a single HTTP GET resolves: transport failure (DNS, connection
refused, TLS), client timeout, or an HTTP response with a status code and a
body (`none` when the body is not valid JSON text). -/
inductive HttpEvent where
  | transportError (e : String)
  | timeout
  | response (status : Nat) (body : Option Json)

/-- Embedding of `get_url` (src/main.rs:55-59): `send()` errors on transport
failure or timeout; on any received response — whatever its status code —
`response.json::<IsBgpSafeYet>()` decodes the body, and each error is
propagated with `?`. -/
def get_url (net : Url → HttpEvent) (url : Url) : Except String IsBgpSafeYet :=
  match net url with
  | HttpEvent.transportError e => Except.error e
  | HttpEvent.timeout => Except.error "operation timed out"
  | HttpEvent.response _ none => Except.error "error decoding response body"
  | HttpEvent.response _ (some body) => decodeIsBgpSafeYet body

/-- Embedding of `check_success` (src/main.rs:61-73): every error of
`get_url` is caught and mapped to `false`; a decoded response maps to
`true`. -/
def check_success (net : Url → HttpEvent) (url : Url) : Bool :=
  match get_url net url with
  | Except.ok _ => true
  | Except.error _ => false

/-- The final verdict logged by main. -/
inductive Verdict where
  | OK
  | NOK
  deriving DecidableEq, Repr

/-- The text main logs for a verdict. -/
def Verdict.text (v : Verdict) : String :=
  match v with
  | Verdict.OK => "OK"
  | Verdict.NOK => "NOK"

/-- Embedding of the verdict combination (src/main.rs:100-104):
`if valid_success && !invalid_success { OK } else { NOK }`. -/
def combine (valid_success invalid_success : Bool) : Verdict :=
  if valid_success && !invalid_success then Verdict.OK else Verdict.NOK

/-- The configuration fields main consumes (src/main.rs:11-33). -/
structure Cli where
  valid_url : String
  invalid_url : String
  alphabet : String
  timeout : Nat
  deriving DecidableEq, Repr

/-- Model of `nanoid!(n, &alphabet)`: each output character is drawn from the
alphabet by an index from the random stream reduced modulo the alphabet size.
Main only calls this with a nonempty alphabet. -/
def nanoid (n : Nat) (alphabet : List Char) (rand : Nat → Nat) : String :=
  String.mk ((List.range n).map (fun i => alphabet.getD (rand i % alphabet.length) 'x'))

/-- The identifier main computes (src/main.rs:80-84): empty when the alphabet
is empty, otherwise `nanoid!(10, &alphabet)`. -/
def runId (rand : Nat → Nat) (cli : Cli) : String :=
  if cli.alphabet.toList.length ≠ 0 then nanoid 10 cli.alphabet.toList rand else ""

/-- Observable trace of one run of main: the identifier, the probe URLs
actually requested in order, the info-level log lines, and the result
(`Except.error` models main returning `Err` through `?` — a fatal abort). -/
structure RunTrace where
  id : String
  probesIssued : List Url
  infoLog : List String
  result : Except String Verdict
  deriving Repr

/-- Embedding of `main` (src/main.rs:76-107), in source order: compute the
identifier; parse the valid base URL (`?` aborts); join and probe it; parse
the invalid base URL (`?` aborts — note this happens after the valid probe
already ran); join and probe it; log `OK` or `NOK` at info level; return
`Ok(())`. -/
def runMain (parse : String → Except String Url) (net : Url → HttpEvent)
    (rand : Nat → Nat) (cli : Cli) : RunTrace :=
  let id := runId rand cli
  match parse cli.valid_url with
  | Except.error e => ⟨id, [], [], Except.error e⟩
  | Except.ok validBase =>
    let validTarget := validBase.join id
    let valid_success := check_success net validTarget
    match parse cli.invalid_url with
    | Except.error e => ⟨id, [validTarget], [], Except.error e⟩
    | Except.ok invalidBase =>
      let invalidTarget := invalidBase.join id
      let invalid_success := check_success net invalidTarget
      let verdict := combine valid_success invalid_success
      ⟨id, [validTarget, invalidTarget], [verdict.text], Except.ok verdict⟩

/-- Process exit status: `main` returns `Result<()>`, so `Ok(())` exits 0 and
a propagated error exits nonzero. -/
def exitCode (t : RunTrace) : Nat :=
  match t.result with
  | Except.ok _ => 0
  | Except.error _ => 1

/-- The pair of probe outcomes gathered under either completion order (the
spec allows the two probes to be scheduled concurrently; this parameterizes
which one finishes first). -/
def gatherOutcomes (net : Url → HttpEvent) (validFirst : Bool) (vUrl iUrl : Url) :
    Bool × Bool :=
  if validFirst then
    let v := check_success net vUrl
    let i := check_success net iUrl
    (v, i)
  else
    let i := check_success net iUrl
    let v := check_success net vUrl
    (v, i)

/-! Concrete fixtures used by counterexamples and witnesses. -/

/-- A concrete valid-endpoint base URL. -/
def vBase : Url := ⟨"https", "valid.example", [""]⟩

/-- A concrete invalid-endpoint base URL. -/
def iBase : Url := ⟨"https", "invalid.example", [""]⟩

/-- A concrete URL-parse oracle: recognizes the two fixture URL strings and
rejects everything else as malformed. -/
def parseC (s : String) : Except String Url :=
  if s = "https://valid.example" then Except.ok vBase
  else if s = "https://invalid.example" then Except.ok iBase
  else Except.error "relative URL without a base"

/-- A deterministic random stream. -/
def randC (_ : Nat) : Nat := 0

/-- A concrete configuration with the default alphabet. -/
def cliC : Cli := ⟨"https://valid.example", "https://invalid.example", "1234567890abcdef", 3⟩

/-- A network where every request times out. -/
def netAllTimeout (_ : Url) : HttpEvent := HttpEvent.timeout

/-- A response body that decodes as the `IsBgpSafeYet` schema. -/
def goodBody : Json :=
  Json.obj [("status", Json.str "valid"), ("asn", Json.int 64500),
            ("name", Json.str "Test Network"), ("blackholed", Json.bool false)]

/-! Theorems settling the claims. -/

/-- C1: the Verdict Combiner is a total function over the two probe outcome
booleans matching the spec truth table: the verdict is `OK` exactly when the
valid-endpoint probe succeeded and the invalid-endpoint probe failed, and
`NOK` in the three other cases. -/
theorem c1_combine_truth_table :
    ∀ validOutcome invalidOutcome : Bool,
      (combine validOutcome invalidOutcome = Verdict.OK ↔
        validOutcome = true ∧ invalidOutcome = false) ∧
      (combine validOutcome invalidOutcome = Verdict.NOK ↔
        ¬(validOutcome = true ∧ invalidOutcome = false)) := by
  decide

/-- C7: `check_success` never raises: for every network behavior and URL it
returns a boolean, and it returns `false` exactly when `get_url` produced an
error (transport, timeout or decode — all recovered locally) and `true`
exactly when `get_url` produced a decoded response. -/
theorem c7_check_success_recovers_every_error :
    ∀ (net : Url → HttpEvent) (url : Url),
      (check_success net url = true ↔ ∃ v, get_url net url = Except.ok v) ∧
      (check_success net url = false ↔ ∃ e, get_url net url = Except.error e) := by
  intro net url
  unfold check_success
  match h : get_url net url with
  | Except.ok v =>
    refine ⟨⟨fun _ => ⟨v, rfl⟩, fun _ => rfl⟩, ⟨fun hc => by simp at hc, fun he => ?_⟩⟩
    rcases he with ⟨e, he⟩
    exact absurd he (by simp)
  | Except.error e =>
    refine ⟨⟨fun hc => by simp at hc, fun hv => ?_⟩, ⟨fun _ => ⟨e, rfl⟩, fun _ => rfl⟩⟩
    rcases hv with ⟨v, hv⟩
    exact absurd hv (by simp)

/-- C2: a probe classifies as succeeded exactly when an HTTP response is
received and its body parses as JSON decoding to the `IsBgpSafeYet` schema;
every other case — transport error, timeout, non-JSON body, schema mismatch —
classifies as failed.  In particular a `200 OK` response with body
`{"unexpected": true}` classifies as failed. -/
theorem c2_check_success_iff_schema_decode :
    (∀ (net : Url → HttpEvent) (url : Url),
      check_success net url = true ↔
        ∃ (status : Nat) (body : Json) (resp : IsBgpSafeYet),
          net url = HttpEvent.response status (some body) ∧
            decodeIsBgpSafeYet body = Except.ok resp) ∧
    (∀ url : Url,
      check_success
        (fun _ => HttpEvent.response 200 (some (Json.obj [("unexpected", Json.bool true)])))
        url = false) := by
  constructor
  · intro net url
    constructor
    · intro h
      match hnet : net url with
      | HttpEvent.transportError e => simp [check_success, get_url, hnet] at h
      | HttpEvent.timeout => simp [check_success, get_url, hnet] at h
      | HttpEvent.response s none => simp [check_success, get_url, hnet] at h
      | HttpEvent.response s (some body) =>
        match hdec : decodeIsBgpSafeYet body with
        | Except.error e => simp [check_success, get_url, hnet, hdec] at h
        | Except.ok resp => exact ⟨s, body, resp, rfl, hdec⟩
    · rintro ⟨s, body, resp, hnet, hdec⟩
      simp [check_success, get_url, hnet, hdec]
  · intro url
    rfl

/-- A network where the valid endpoint answers HTTP 500 with a body that
decodes as the schema and the invalid endpoint times out. -/
def netC3 (u : Url) : HttpEvent :=
  if u.host = "valid.example" then HttpEvent.response 500 (some goodBody)
  else HttpEvent.timeout

/-- C3 counterexample: `get_url` never inspects the HTTP status code, so an
HTTP 500 response whose body decodes as the schema classifies the valid probe
as succeeded; with the invalid probe timing out the run's verdict is `OK`,
not `NOK` as the claim states for "HTTP 500 regardless of its body". -/
theorem c3_counterexample :
    (runMain parseC netC3 randC cliC).result = Except.ok Verdict.OK ∧
      Verdict.OK ≠ Verdict.NOK := by
  exact ⟨rfl, by decide⟩

/-- C3 (amended): an HTTP response is treated as probe failure exactly when
its body fails to decode as the schema, regardless of the status code; in
particular, if the valid-endpoint probe receives an HTTP 500 (or any status)
response whose body does not decode as the schema and the invalid-endpoint
probe times out, the verdict is `NOK`. -/
theorem c3_amended_bad_body_is_nok (parse : String → Except String Url)
    (net : Url → HttpEvent) (rand : Nat → Nat) (cli : Cli) (vb ib : Url)
    (hv : parse cli.valid_url = Except.ok vb)
    (hi : parse cli.invalid_url = Except.ok ib)
    (status : Nat) (body : Option Json)
    (hdec : ∀ j, body = some j → ∃ e, decodeIsBgpSafeYet j = Except.error e)
    (hnv : net (vb.join (runId rand cli)) = HttpEvent.response status body)
    (hni : net (ib.join (runId rand cli)) = HttpEvent.timeout) :
    (runMain parse net rand cli).result = Except.ok Verdict.NOK := by
  have hvfail : check_success net (vb.join (runId rand cli)) = false := by
    match body, hnv with
    | none, hnv => simp [check_success, get_url, hnv]
    | some j, hnv =>
      rcases hdec j rfl with ⟨e, he⟩
      simp [check_success, get_url, hnv, he]
  have hifail : check_success net (ib.join (runId rand cli)) = false := by
    simp [check_success, get_url, hni]
  simp [runMain, hv, hi, hvfail, hifail, combine]

/-- Witness for the amended C3 at a concrete input: valid endpoint answers
HTTP 500 with an empty JSON object (schema mismatch), invalid endpoint times
out; the run's verdict is `NOK`. -/
theorem c3_amended_bad_body_is_nok_witness :
    (runMain parseC
      (fun u => if u.host = "valid.example"
        then HttpEvent.response 500 (some (Json.obj []))
        else HttpEvent.timeout) randC cliC).result = Except.ok Verdict.NOK := by
  exact c3_amended_bad_body_is_nok parseC _ randC cliC vBase iBase rfl rfl
    500 (some (Json.obj []))
    (fun j hj => by
      cases hj
      exact ⟨"missing field status", rfl⟩)
    rfl rfl

/-- A configuration whose invalid base URL is malformed. -/
def cliBadInvalid : Cli := ⟨"https://valid.example", "not a url", "1234567890abcdef", 3⟩

/-- A configuration whose valid base URL is malformed. -/
def cliBadValid : Cli := ⟨"not a url", "https://invalid.example", "1234567890abcdef", 3⟩

/-- C4 counterexample: with a well-formed valid base URL and a malformed
invalid base URL, main parses the invalid URL only after the valid probe has
already been awaited (src/main.rs:93 before src/main.rs:95), so the abort
happens after a probe request was issued — contradicting "aborts the program
before any probe request is issued" for the invalid URL. -/
theorem c4_counterexample :
    (runMain parseC netAllTimeout randC cliBadInvalid).result =
        Except.error "relative URL without a base" ∧
      (runMain parseC netAllTimeout randC cliBadInvalid).probesIssued =
        [⟨"https", "valid.example", ["1111111111"]⟩] := by
  exact ⟨rfl, rfl⟩

/-- C4 (amended): a malformed base URL is fatal (main aborts with the parse
error); a malformed valid base URL aborts before any probe request is issued,
while a malformed invalid base URL aborts before the invalid probe is issued
but only after the valid probe has already run. -/
theorem c4_amended_abort_points (parse : String → Except String Url)
    (net : Url → HttpEvent) (rand : Nat → Nat) (cli : Cli) :
    (∀ e, parse cli.valid_url = Except.error e →
      (runMain parse net rand cli).probesIssued = [] ∧
        (runMain parse net rand cli).result = Except.error e) ∧
    (∀ vb e, parse cli.valid_url = Except.ok vb →
      parse cli.invalid_url = Except.error e →
      (runMain parse net rand cli).probesIssued = [vb.join (runId rand cli)] ∧
        (runMain parse net rand cli).result = Except.error e) := by
  constructor
  · intro e hv
    simp [runMain, hv]
  · intro vb e hv hi
    simp [runMain, hv, hi]

/-- Witness for the amended C4 at concrete inputs: one run whose valid base
URL is malformed (no probe issued, fatal abort), one run whose invalid base
URL is malformed (exactly the valid probe issued, fatal abort). -/
theorem c4_amended_abort_points_witness :
    ((runMain parseC netAllTimeout randC cliBadValid).probesIssued = [] ∧
      (runMain parseC netAllTimeout randC cliBadValid).result =
        Except.error "relative URL without a base") ∧
    ((runMain parseC netAllTimeout randC cliBadInvalid).probesIssued =
        [vBase.join (runId randC cliBadInvalid)] ∧
      (runMain parseC netAllTimeout randC cliBadInvalid).result =
        Except.error "relative URL without a base") := by
  exact ⟨(c4_amended_abort_points parseC netAllTimeout randC cliBadValid).1
      "relative URL without a base" rfl,
    (c4_amended_abort_points parseC netAllTimeout randC cliBadInvalid).2
      vBase "relative URL without a base" rfl rfl⟩

/-- An in-range `getD` is a member of the list. -/
theorem list_getD_mem_of_lt (l : List Char) (d : Char) (i : Nat) (h : i < l.length) :
    l.getD i d ∈ l := by
  simp [List.getD, List.getElem?_eq_getElem h]

/-- A nonempty string has a nonempty character list. -/
theorem string_toList_length_pos (s : String) (h : s ≠ "") : 0 < s.toList.length := by
  cases s with
  | mk data =>
    cases data with
    | nil => exact absurd rfl h
    | cons a l => simp [String.toList]

/-- C5: with a nonempty alphabet, the generated Request Identifier has length
exactly 10, every one of its characters is a member of the alphabet, and the
same identifier is joined to both base URLs to form the two probe targets. -/
theorem c5_identifier_shape (parse : String → Except String Url)
    (net : Url → HttpEvent) (rand : Nat → Nat) (cli : Cli) (vb ib : Url)
    (halpha : cli.alphabet ≠ "")
    (hv : parse cli.valid_url = Except.ok vb)
    (hi : parse cli.invalid_url = Except.ok ib) :
    (runId rand cli).length = 10 ∧
    (∀ c ∈ (runId rand cli).toList, c ∈ cli.alphabet.toList) ∧
    (runMain parse net rand cli).probesIssued =
      [vb.join (runId rand cli), ib.join (runId rand cli)] := by
  have hlen : 0 < cli.alphabet.toList.length := string_toList_length_pos _ halpha
  have hne : cli.alphabet.toList.length ≠ 0 := Nat.pos_iff_ne_zero.mp hlen
  have hkey : runId rand cli = nanoid 10 cli.alphabet.toList rand := by
    unfold runId
    exact if_pos hne
  refine ⟨?_, ?_, ?_⟩
  · have hlift : (runId rand cli).length =
        ((List.range 10).map
          (fun i => cli.alphabet.toList.getD (rand i % cli.alphabet.toList.length) 'x')).length := by
      rw [hkey]
      rfl
    rw [hlift]
    simp
  · intro c hc
    have hc' : c ∈ (List.range 10).map
        (fun i => cli.alphabet.toList.getD (rand i % cli.alphabet.toList.length) 'x') := by
      rw [hkey] at hc
      exact hc
    rcases List.mem_map.mp hc' with ⟨i, _, hget⟩
    rw [← hget]
    exact list_getD_mem_of_lt _ _ _ (Nat.mod_lt _ hlen)
  · simp [runMain, hv, hi]

/-- Witness for C5 at concrete inputs: the default alphabet is nonempty, the
identifier has length 10 over it, and both probe targets carry it. -/
theorem c5_identifier_shape_witness :
    cliC.alphabet ≠ "" ∧
    ((runId randC cliC).length = 10 ∧
      (∀ c ∈ (runId randC cliC).toList, c ∈ cliC.alphabet.toList) ∧
      (runMain parseC netAllTimeout randC cliC).probesIssued =
        [vBase.join (runId randC cliC), iBase.join (runId randC cliC)]) := by
  exact ⟨by decide,
    c5_identifier_shape parseC netAllTimeout randC cliC vBase iBase (by decide) rfl rfl⟩

/-- C6: with an empty alphabet, identifier generation is skipped, the
identifier is the empty string, each probe URL equals the bare base URL, and
the run completes without error. -/
theorem c6_empty_alphabet (parse : String → Except String Url)
    (net : Url → HttpEvent) (rand : Nat → Nat) (cli : Cli) (vb ib : Url)
    (halpha : cli.alphabet = "")
    (hv : parse cli.valid_url = Except.ok vb)
    (hi : parse cli.invalid_url = Except.ok ib) :
    runId rand cli = "" ∧
    (runMain parse net rand cli).probesIssued = [vb, ib] ∧
    ∃ v, (runMain parse net rand cli).result = Except.ok v := by
  have hid : runId rand cli = "" := by
    simp [runId, halpha, String.toList]
  refine ⟨hid, ?_, ?_⟩
  · simp [runMain, hv, hi, hid, Url.join]
  · simp [runMain, hv, hi]

/-- A configuration with an empty alphabet. -/
def cliEmptyAlpha : Cli := ⟨"https://valid.example", "https://invalid.example", "", 3⟩

/-- Witness for C6 at concrete inputs: with the empty alphabet the identifier
is empty, the probe URLs equal the bare base URLs, and the run completes. -/
theorem c6_empty_alphabet_witness :
    cliEmptyAlpha.alphabet = "" ∧
    (runId randC cliEmptyAlpha = "" ∧
      (runMain parseC netAllTimeout randC cliEmptyAlpha).probesIssued = [vBase, iBase] ∧
      ∃ v, (runMain parseC netAllTimeout randC cliEmptyAlpha).result = Except.ok v) := by
  exact ⟨rfl,
    c6_empty_alphabet parseC netAllTimeout randC cliEmptyAlpha vBase iBase rfl rfl rfl⟩

/-- C8: the verdict is produced only from the pair of probe outcomes — the
run's result is `combine` applied to both `check_success` values, both probes
having been issued — and it does not depend on which probe completes first:
gathering the outcomes in either completion order yields the same verdict. -/
theorem c8_join_barrier_order_independence (parse : String → Except String Url)
    (net : Url → HttpEvent) (rand : Nat → Nat) (cli : Cli) (vb ib : Url)
    (hv : parse cli.valid_url = Except.ok vb)
    (hi : parse cli.invalid_url = Except.ok ib) :
    (runMain parse net rand cli).result =
      Except.ok (combine (check_success net (vb.join (runId rand cli)))
        (check_success net (ib.join (runId rand cli)))) ∧
    (runMain parse net rand cli).probesIssued =
      [vb.join (runId rand cli), ib.join (runId rand cli)] ∧
    (∀ o₁ o₂ : Bool,
      combine (gatherOutcomes net o₁ (vb.join (runId rand cli)) (ib.join (runId rand cli))).1
          (gatherOutcomes net o₁ (vb.join (runId rand cli)) (ib.join (runId rand cli))).2 =
        combine (gatherOutcomes net o₂ (vb.join (runId rand cli)) (ib.join (runId rand cli))).1
          (gatherOutcomes net o₂ (vb.join (runId rand cli)) (ib.join (runId rand cli))).2) := by
  refine ⟨?_, ?_, ?_⟩
  · simp [runMain, hv, hi]
  · simp [runMain, hv, hi]
  · intro o₁ o₂
    cases o₁ <;> cases o₂ <;> rfl

/-- Witness for C8 at concrete inputs. -/
theorem c8_join_barrier_order_independence_witness :
    (runMain parseC netAllTimeout randC cliC).result =
      Except.ok (combine (check_success netAllTimeout (vBase.join (runId randC cliC)))
        (check_success netAllTimeout (iBase.join (runId randC cliC)))) ∧
    (runMain parseC netAllTimeout randC cliC).probesIssued =
      [vBase.join (runId randC cliC), iBase.join (runId randC cliC)] ∧
    (∀ o₁ o₂ : Bool,
      combine (gatherOutcomes netAllTimeout o₁ (vBase.join (runId randC cliC))
            (iBase.join (runId randC cliC))).1
          (gatherOutcomes netAllTimeout o₁ (vBase.join (runId randC cliC))
            (iBase.join (runId randC cliC))).2 =
        combine (gatherOutcomes netAllTimeout o₂ (vBase.join (runId randC cliC))
            (iBase.join (runId randC cliC))).1
          (gatherOutcomes netAllTimeout o₂ (vBase.join (runId randC cliC))
            (iBase.join (runId randC cliC))).2) := by
  exact c8_join_barrier_order_independence parseC netAllTimeout randC cliC vBase iBase rfl rfl

/-- C9: on every normal completion (both base URLs parse), the run emits
exactly one info-level log line, that line is exactly `OK` or exactly `NOK`,
and the process exit status is 0 whichever verdict was reached. -/
theorem c9_single_info_line_exit_zero (parse : String → Except String Url)
    (net : Url → HttpEvent) (rand : Nat → Nat) (cli : Cli) (vb ib : Url)
    (hv : parse cli.valid_url = Except.ok vb)
    (hi : parse cli.invalid_url = Except.ok ib) :
    ((runMain parse net rand cli).infoLog = ["OK"] ∨
      (runMain parse net rand cli).infoLog = ["NOK"]) ∧
    exitCode (runMain parse net rand cli) = 0 := by
  constructor
  · cases hvs : check_success net (vb.join (runId rand cli)) <;>
      cases his : check_success net (ib.join (runId rand cli)) <;>
        simp [runMain, hv, hi, hvs, his, combine, Verdict.text]
  · simp [runMain, hv, hi, exitCode]

/-- Witness for C9 at concrete inputs: both probes time out, the single info
line is `NOK`, and the exit status is 0. -/
theorem c9_single_info_line_exit_zero_witness :
    ((runMain parseC netAllTimeout randC cliC).infoLog = ["OK"] ∨
      (runMain parseC netAllTimeout randC cliC).infoLog = ["NOK"]) ∧
    exitCode (runMain parseC netAllTimeout randC cliC) = 0 := by
  exact c9_single_info_line_exit_zero parseC netAllTimeout randC cliC vBase iBase rfl rfl

/-- A response body carrying the four schema fields with an arbitrary JSON
integer in the `asn` position. -/
def asnBody (s : String) (n : Int) (nm : String) (b : Bool) : Json :=
  Json.obj [("status", Json.str s), ("asn", Json.int n),
            ("name", Json.str nm), ("blackholed", Json.bool b)]

/-- C10: the `asn` field is decoded as an unsigned 32-bit integer — a body
whose `asn` value is negative or at least `2^32` fails schema decoding even
when every other field is well-typed, and such a response classifies the
probe as failed. -/
theorem c10_asn_u32_range (s nm : String) (b : Bool) (n : Int)
    (hn : n < 0 ∨ (2 : Int) ^ 32 ≤ n)
    (net : Url → HttpEvent) (url : Url) (status : Nat)
    (hnet : net url = HttpEvent.response status (some (asnBody s n nm b))) :
    decodeIsBgpSafeYet (asnBody s n nm b) = Except.error "invalid u32" ∧
    check_success net url = false := by
  have h32 : (2 : Int) ^ 32 = 4294967296 := by norm_num
  have hcond : ¬(0 ≤ n ∧ n < 4294967296) := by
    rcases hn with h | h
    · rintro ⟨h0, -⟩
      omega
    · rintro ⟨-, h1⟩
      rw [h32] at h
      omega
  have hdec : decodeIsBgpSafeYet (asnBody s n nm b) = Except.error "invalid u32" := by
    simp [asnBody, decodeIsBgpSafeYet, getField, List.find?, decodeString, decodeU32, hcond]
  refine ⟨hdec, ?_⟩
  simp [check_success, get_url, hnet, hdec]

/-- Witness for C10 at a concrete input: `asn = -1` fails decoding and the
probe classifies as failed. -/
theorem c10_asn_u32_range_witness :
    decodeIsBgpSafeYet (asnBody "valid" (-1) "Test Network" false) =
        Except.error "invalid u32" ∧
    check_success
        (fun _ => HttpEvent.response 200 (some (asnBody "valid" (-1) "Test Network" false)))
        vBase = false := by
  exact c10_asn_u32_range "valid" "Test Network" false (-1) (Or.inl (by decide))
    _ vBase 200 rfl
